import Mathlib

/-!
Shallow embedding of the Spotify MCP server (server.js) for specification checking.

The embedding covers the in-memory token cache (`ACCESS_TOKEN`, `ACCESS_TOKEN_EXP`),
the refresh logic `refreshAccessTokenIfNeeded`, the authenticated request helper
`spotifyFetch`, the one-shot OAuth setup callback handler, and the tool handlers
`spotify_add_to_playlist` and `spotify_search_tracks`.

Network effects are modelled by passing the upstream responses in as explicit
arguments and counting how many requests each code path issues; `Date.now()` is
modelled by explicit time arguments (one per call site, since the source calls it
twice in a refresh). Times are epoch milliseconds as `Int`.
-/

namespace SpotifyMCP

/-- JavaScript truthiness of a nullable string: `null`/`undefined` and the empty
string are falsy, every other string is truthy. Used because the source guards
with `if (!clientId || ...)`, `if (!token)`, `if (error)`, `if (!code || ...)`. -/
def truthy : Option String → Bool
  | none => false
  | some s => !(s == "")

/-- The in-memory token cache of the server: the mutable pair
`ACCESS_TOKEN` (string or null) and `ACCESS_TOKEN_EXP` (epoch ms, initially 0). -/
structure TokenState where
  accessToken : Option String
  accessTokenExp : Int
  deriving DecidableEq

/-- The refresh-relevant environment configuration: `SPOTIFY_CLIENT_ID`,
`SPOTIFY_CLIENT_SECRET`, `SPOTIFY_REFRESH_TOKEN` (each possibly unset). -/
structure Env where
  clientId : Option String
  clientSecret : Option String
  refreshToken : Option String
  deriving DecidableEq

/-- The authorization server's response to the refresh POST, as observed by the
code: `res.ok`, `res.status`, the body text (read on failure), and the parsed
JSON fields `access_token` and `expires_in` (read on success). -/
structure RefreshResponse where
  ok : Bool
  status : Nat
  text : String
  access_token : Option String
  expires_in : Option Int
  deriving DecidableEq

/-- The error taxonomy of the server; each constructor corresponds to one `throw`
site in server.js and carries exactly the data interpolated into its message. -/
inductive SpotifyError where
  | noCredentialsAvailable
  | tokenRefreshFailed (status : Nat) (body : String)
  | upstreamApiError (status : Nat) (body : String)
  deriving DecidableEq

/-- The exact message strings of the three `throw new Error(...)` sites. -/
def SpotifyError.message : SpotifyError → String
  | SpotifyError.noCredentialsAvailable =>
      "No Spotify access token. Provide SPOTIFY_ACCESS_TOKEN or set refresh env vars."
  | SpotifyError.tokenRefreshFailed status body =>
      "Spotify token refresh failed: " ++ toString status ++ " " ++ body
  | SpotifyError.upstreamApiError status body =>
      "Spotify API error: " ++ toString status ++ " " ++ body

/-- `refreshAccessTokenIfNeeded` from server.js. Inputs: the current cache `st`,
`now` (the first `Date.now()`), the environment `e`, the authorization server's
response `resp` to the refresh POST (consulted only if the POST is issued), and
`nowAfter` (the second `Date.now()`, taken after the response arrives). Output:
the returned token or thrown error, the cache afterwards, and how many POSTs to
the token endpoint were issued. -/
def refreshAccessTokenIfNeeded (st : TokenState) (now : Int) (e : Env)
    (resp : RefreshResponse) (nowAfter : Int) :
    Except SpotifyError (Option String) × TokenState × Nat :=
  if truthy st.accessToken ∧ now < st.accessTokenExp - 30000 then
    (Except.ok st.accessToken, st, 0)
  else if ¬(truthy e.clientId ∧ truthy e.clientSecret ∧ truthy e.refreshToken) then
    (Except.ok st.accessToken, st, 0)
  else if ¬ resp.ok then
    (Except.error (SpotifyError.tokenRefreshFailed resp.status resp.text), st, 1)
  else
    (Except.ok resp.access_token,
      { accessToken := resp.access_token,
        accessTokenExp := nowAfter + (resp.expires_in.getD 3600) * 1000 }, 1)

/-- An upstream API response as observed by `spotifyFetch`: `res.ok`,
`res.status`, the body text (read on failure) and the parsed JSON body of
type `α` (read on success). -/
structure ApiResponse (α : Type) where
  ok : Bool
  status : Nat
  text : String
  json : α
  deriving DecidableEq

/-- Outcome of one `spotifyFetch` call: the value or error, the token cache
afterwards, and the number of refresh POSTs and API requests issued. -/
structure FetchOutcome (α : Type) where
  result : Except SpotifyError α
  state : TokenState
  refreshCalls : Nat
  apiCalls : Nat

/-- `spotifyFetch` from server.js: obtain a token via
`refreshAccessTokenIfNeeded`, throw if it is falsy, then issue the API request
and either throw on a non-ok status or return the parsed JSON body. -/
def spotifyFetch {α : Type} (st : TokenState) (now : Int) (e : Env)
    (rresp : RefreshResponse) (nowAfter : Int) (apiResp : ApiResponse α) :
    FetchOutcome α :=
  match refreshAccessTokenIfNeeded st now e rresp nowAfter with
  | (Except.error err, st2, rc) => ⟨Except.error err, st2, rc, 0⟩
  | (Except.ok token, st2, rc) =>
    if ¬ truthy token then
      ⟨Except.error SpotifyError.noCredentialsAvailable, st2, rc, 0⟩
    else if ¬ apiResp.ok then
      ⟨Except.error (SpotifyError.upstreamApiError apiResp.status apiResp.text), st2, rc, 1⟩
    else
      ⟨Except.ok apiResp.json, st2, rc, 1⟩

/-! ## Setup-mode OAuth callback listener -/

/-- JavaScript `String.prototype.startsWith`, as used in
`req.url?.startsWith("/callback")`. -/
def strStartsWith (s pre : String) : Bool :=
  List.isPrefixOf pre.data s.data

/-- The path component of a request url: everything before the first `?`
(what `new URL(req.url, base).pathname` yields for these urls). -/
def urlPath (s : String) : String :=
  String.mk (s.data.takeWhile (fun c => c != '?'))

/-- A request hitting the setup listener: its raw url, and the `code`, `state`
and `error` query parameters as `url.searchParams.get` returns them
(null when absent). -/
structure CallbackRequest where
  url : String
  code : Option String
  state : Option String
  error : Option String
  deriving DecidableEq

/-- The authorization server's response to the code-exchange POST. -/
structure ExchangeResponse where
  ok : Bool
  status : Nat
  text : String
  access_token : Option String
  refresh_token : Option String
  deriving DecidableEq

/-- Terminal disposition of one request to the setup listener. `notFound` keeps
the listener awaiting; every other constructor ends the flow via `shutdown`. -/
inductive SetupOutcome where
  | notFound
  | authError (e : String)
  | badRequest
  | exchangeFailed (status : Nat) (body : String)
  | success (refresh access : Option String)
  deriving DecidableEq

/-- The process exit code each outcome leads to: `none` means the listener keeps
running (no shutdown), otherwise `shutdown(1)` or `shutdown(0)` as in the source. -/
def exitCode : SetupOutcome → Option Nat
  | SetupOutcome.notFound => none
  | SetupOutcome.authError _ => some 1
  | SetupOutcome.badRequest => some 1
  | SetupOutcome.exchangeFailed _ _ => some 1
  | SetupOutcome.success _ _ => some 0

/-- The `http.createServer` callback of setup mode. `STATE` is the random state
string generated at start; `exch` is the token endpoint's response to the
code-exchange POST (consulted only if that POST is issued). Returns the outcome
and the number of token-exchange POSTs issued. -/
def setupCallback (STATE : String) (req : CallbackRequest) (exch : ExchangeResponse) :
    SetupOutcome × Nat :=
  if ¬ strStartsWith req.url "/callback" then (SetupOutcome.notFound, 0)
  else if truthy req.error then (SetupOutcome.authError (req.error.getD ""), 0)
  else if ¬ truthy req.code ∨ req.state ≠ some STATE then (SetupOutcome.badRequest, 0)
  else if ¬ exch.ok then (SetupOutcome.exchangeFailed exch.status exch.text, 1)
  else (SetupOutcome.success exch.refresh_token exch.access_token, 1)

/-! ## Tool handlers -/

/-- One block of a tool response's `content` list. -/
inductive ContentBlock where
  | text (s : String)
  | resourceLink (uri name description : String)
  deriving DecidableEq

/-- Arguments of the `spotify_add_to_playlist` tool. -/
structure AddToPlaylistArgs where
  playlistId : String
  uris : List String
  position : Option Int
  deriving DecidableEq

/-- The declared zod schema constraint of `spotify_add_to_playlist` beyond field
types: `uris: z.array(z.string()).min(1)`. -/
def addToPlaylistValid (a : AddToPlaylistArgs) : Bool :=
  decide (1 ≤ a.uris.length)

/-- Either the protocol layer's invalid-input rejection, or a handler result. -/
inductive ToolResult (α : Type) where
  | invalidInput
  | handled (r : α)
  deriving DecidableEq

/-- Modelled from the spec: the tool-invocation protocol runtime (the external
MCP SDK plus zod, not part of src) validates arguments against the declared
input schema and reports a violation through its standard invalid-input
signaling before the handler body runs; hence an invalid invocation performs
zero network calls. `handler` returns its result paired with the number of
network requests it issued. -/
def invokeTool {A R : Type} (valid : A → Bool) (handler : A → R × Nat) (a : A) :
    ToolResult R × Nat :=
  if valid a then
    let r := handler a
    (ToolResult.handled r.1, r.2)
  else (ToolResult.invalidInput, 0)

/-- Body of the `spotify_add_to_playlist` handler: one `spotifyFetch` POST, then
a confirmation text block. Returns the result and total network requests made. -/
def addToPlaylistHandler (a : AddToPlaylistArgs) (st : TokenState) (now : Int) (e : Env)
    (rresp : RefreshResponse) (nowAfter : Int) (apiResp : ApiResponse Unit) :
    Except SpotifyError (List ContentBlock) × Nat :=
  let out := spotifyFetch st now e rresp nowAfter apiResp
  match out.result with
  | Except.error err => (Except.error err, out.refreshCalls + out.apiCalls)
  | Except.ok _ =>
    (Except.ok [ContentBlock.text ("Added " ++ toString a.uris.length ++
        " track(s) to playlist " ++ a.playlistId ++ ".")],
      out.refreshCalls + out.apiCalls)

/-- An artist object of the search response (only `name` is read). -/
structure Artist where
  name : String
  deriving DecidableEq

/-- A track object of the search response (the handler reads `name`, `artists`,
`uri`). -/
structure Track where
  name : String
  artists : List Artist
  uri : String
  deriving DecidableEq

/-- The `tracks` object of the search response; `items` may be absent. -/
structure TracksObj where
  items : Option (List Track)
  deriving DecidableEq

/-- The parsed JSON body of a search response; `tracks` may be absent. -/
structure SearchData where
  tracks : Option TracksObj
  deriving DecidableEq

/-- `data.tracks?.items ?? []` from the search handler. -/
def searchItems (d : SearchData) : List Track :=
  match d.tracks with
  | none => []
  | some tr => tr.items.getD []

/-- One numbered line of the search output:
`` `${i + 1}. ${t.name} — ${t.artists.map(a => a.name).join(", ")}  [${t.uri}]` ``. -/
def trackLine (i : Nat) (t : Track) : String :=
  toString (i + 1) ++ ". " ++ t.name ++ " — " ++
    String.intercalate ", " (t.artists.map Artist.name) ++ "  [" ++ t.uri ++ "]"

/-- JavaScript `s || d` on strings: the empty string is falsy. -/
def jsOrString (s d : String) : String :=
  if s = "" then d else s

/-- The text of the single content block the search handler returns:
`lines.join("\n") || "No tracks found. Try a different query or filters."`. -/
def searchTracksText (d : SearchData) : String :=
  jsOrString
    (String.intercalate "\n" ((searchItems d).enum.map (fun p => trackLine p.1 p.2)))
    "No tracks found. Try a different query or filters."

/-- The `spotify_search_tracks` handler body: one `spotifyFetch` GET, then the
formatted content list (errors from the fetch propagate). -/
def searchTracksTool (st : TokenState) (now : Int) (e : Env) (rresp : RefreshResponse)
    (nowAfter : Int) (apiResp : ApiResponse SearchData) :
    Except SpotifyError (List ContentBlock) :=
  match (spotifyFetch st now e rresp nowAfter apiResp).result with
  | Except.error err => Except.error err
  | Except.ok data => Except.ok [ContentBlock.text (searchTracksText data)]

/-! ## Shared helper lemmas -/

/-- Helper: with an incomplete refresh secret, `refreshAccessTokenIfNeeded`
returns the cached value, leaves the cache unchanged, and issues no request. -/
theorem refresh_no_creds_helper (st : TokenState) (now : Int) (e : Env)
    (resp : RefreshResponse) (nowAfter : Int)
    (h2 : ¬(truthy e.clientId ∧ truthy e.clientSecret ∧ truthy e.refreshToken)) :
    refreshAccessTokenIfNeeded st now e resp nowAfter = (Except.ok st.accessToken, st, 0) := by
  by_cases h1 : truthy st.accessToken ∧ now < st.accessTokenExp - 30000
  · unfold refreshAccessTokenIfNeeded
    rw [if_pos h1]
  · unfold refreshAccessTokenIfNeeded
    rw [if_neg h1, if_pos h2]

/-! ## Claims about the token cache and refresher -/

/-- Claim C1: for a cached bearer token whose stored expiry is more than 30
seconds after the current time, `refreshAccessTokenIfNeeded` returns the cached
token unchanged, issues no request to the token endpoint, and does not mutate
the token store. -/
theorem refresh_cache_hit_no_network (st : TokenState) (now : Int) (e : Env)
    (resp : RefreshResponse) (nowAfter : Int)
    (htok : truthy st.accessToken = true) (hexp : now + 30000 < st.accessTokenExp) :
    refreshAccessTokenIfNeeded st now e resp nowAfter = (Except.ok st.accessToken, st, 0) := by
  unfold refreshAccessTokenIfNeeded
  rw [if_pos ⟨by simp [htok], by omega⟩]

/-- Witness for C1 at a concrete input. -/
theorem refresh_cache_hit_no_network_witness :
    refreshAccessTokenIfNeeded ⟨some "tok", 100000⟩ 0 ⟨some "i", some "s", some "r"⟩
      ⟨true, 200, "", some "other", some 60⟩ 7 =
      (Except.ok (some "tok"), ⟨some "tok", 100000⟩, 0) :=
  refresh_cache_hit_no_network ⟨some "tok", 100000⟩ 0 ⟨some "i", some "s", some "r"⟩
    ⟨true, 200, "", some "other", some 60⟩ 7 (by decide) (by decide)

/-- Claim C2: with a cached token expiring within 30 seconds (or absent) and a
complete refresh secret, `refreshAccessTokenIfNeeded` issues exactly one refresh
request and, on a success response, stores the returned bearer token with expiry
`Date.now() + expires_in * 1000` ms (`expires_in` defaulting to 3600 when absent
from the response) and returns that new token. -/
theorem refresh_cache_miss_refreshes (st : TokenState) (now : Int) (e : Env)
    (resp : RefreshResponse) (nowAfter : Int)
    (hmiss : truthy st.accessToken = false ∨ st.accessTokenExp ≤ now + 30000)
    (hid : truthy e.clientId = true) (hsec : truthy e.clientSecret = true)
    (href : truthy e.refreshToken = true) (hok : resp.ok = true) :
    refreshAccessTokenIfNeeded st now e resp nowAfter =
      (Except.ok resp.access_token,
        { accessToken := resp.access_token,
          accessTokenExp := nowAfter + (resp.expires_in.getD 3600) * 1000 }, 1) := by
  have h1 : ¬(truthy st.accessToken ∧ now < st.accessTokenExp - 30000) := by
    rcases hmiss with h | h
    · intro hc
      rw [h] at hc
      exact absurd hc.1 (by simp)
    · intro hc
      exact absurd hc.2 (by omega)
  unfold refreshAccessTokenIfNeeded
  rw [if_neg h1, if_neg (by simp [hid, hsec, href]), if_neg (by simp [hok])]

/-- Witness for C2 at a concrete input: expired cache, full secret, success
response carrying `expires_in = 120`; the stored expiry is `5 + 120 * 1000`. -/
theorem refresh_cache_miss_refreshes_witness :
    refreshAccessTokenIfNeeded ⟨none, 0⟩ 0 ⟨some "i", some "s", some "r"⟩
      ⟨true, 200, "", some "newtok", some 120⟩ 5 =
      (Except.ok (some "newtok"), ⟨some "newtok", 120005⟩, 1) := by
  have h := refresh_cache_miss_refreshes ⟨none, 0⟩ 0 ⟨some "i", some "s", some "r"⟩
    ⟨true, 200, "", some "newtok", some 120⟩ 5 (Or.inl (by decide))
    (by decide) (by decide) (by decide) (by decide)
  simpa using h

/-- Claim C9: when a refresh attempt is made (cache miss, full secret) and the
authorization server answers with a non-success status, the call fails with
`tokenRefreshFailed` carrying that status and body, and the token store is
exactly what it was before the call. -/
theorem refresh_failure_state_unchanged (st : TokenState) (now : Int) (e : Env)
    (resp : RefreshResponse) (nowAfter : Int)
    (hmiss : truthy st.accessToken = false ∨ st.accessTokenExp ≤ now + 30000)
    (hid : truthy e.clientId = true) (hsec : truthy e.clientSecret = true)
    (href : truthy e.refreshToken = true) (hfail : resp.ok = false) :
    refreshAccessTokenIfNeeded st now e resp nowAfter =
      (Except.error (SpotifyError.tokenRefreshFailed resp.status resp.text), st, 1) := by
  have h1 : ¬(truthy st.accessToken ∧ now < st.accessTokenExp - 30000) := by
    rcases hmiss with h | h
    · intro hc
      rw [h] at hc
      exact absurd hc.1 (by simp)
    · intro hc
      exact absurd hc.2 (by omega)
  unfold refreshAccessTokenIfNeeded
  rw [if_neg h1, if_neg (by simp [hid, hsec, href]), if_pos (by simp [hfail])]

/-- Witness for C9 at a concrete input: a 400 response with body "bad" throws
and leaves the store untouched. -/
theorem refresh_failure_state_unchanged_witness :
    refreshAccessTokenIfNeeded ⟨some "old", 20000⟩ 0 ⟨some "i", some "s", some "r"⟩
      ⟨false, 400, "bad", none, none⟩ 9 =
      (Except.error (SpotifyError.tokenRefreshFailed 400 "bad"), ⟨some "old", 20000⟩, 1) :=
  refresh_failure_state_unchanged ⟨some "old", 20000⟩ 0 ⟨some "i", some "s", some "r"⟩
    ⟨false, 400, "bad", none, none⟩ 9 (Or.inr (by decide))
    (by decide) (by decide) (by decide) (by decide)

/-- Claim C10: when at least one of client id, client secret, refresh token is
missing (falsy), `refreshAccessTokenIfNeeded` issues no request, returns the
currently cached value (possibly none), and leaves the store unchanged. -/
theorem refresh_missing_creds_no_network (st : TokenState) (now : Int) (e : Env)
    (resp : RefreshResponse) (nowAfter : Int)
    (hcreds : truthy e.clientId = false ∨ truthy e.clientSecret = false ∨
      truthy e.refreshToken = false) :
    refreshAccessTokenIfNeeded st now e resp nowAfter = (Except.ok st.accessToken, st, 0) := by
  apply refresh_no_creds_helper
  rcases hcreds with h | h | h <;> simp [h]

/-- Witness for C10 at a concrete input: client secret missing, valid-looking
cached token is returned untouched with zero requests. -/
theorem refresh_missing_creds_no_network_witness :
    refreshAccessTokenIfNeeded ⟨some "tok", 10000⟩ 50000 ⟨some "i", none, some "r"⟩
      ⟨true, 200, "", some "x", none⟩ 3 =
      (Except.ok (some "tok"), ⟨some "tok", 10000⟩, 0) :=
  refresh_missing_creds_no_network ⟨some "tok", 10000⟩ 50000 ⟨some "i", none, some "r"⟩
    ⟨true, 200, "", some "x", none⟩ 3 (Or.inr (Or.inl (by decide)))

/-! ## Claims about the authenticated request client -/

/-- Claim C3: with no cached token and an incomplete refresh secret,
`spotifyFetch` fails with `noCredentialsAvailable`, issues no refresh request
and no API request, and leaves the token store unchanged. -/
theorem fetch_no_creds_no_cache_fails {α : Type} (st : TokenState) (now : Int) (e : Env)
    (rresp : RefreshResponse) (nowAfter : Int) (apiResp : ApiResponse α)
    (hcache : st.accessToken = none)
    (hcreds : truthy e.clientId = false ∨ truthy e.clientSecret = false ∨
      truthy e.refreshToken = false) :
    spotifyFetch st now e rresp nowAfter apiResp =
      ⟨Except.error SpotifyError.noCredentialsAvailable, st, 0, 0⟩ := by
  have h2 : ¬(truthy e.clientId ∧ truthy e.clientSecret ∧ truthy e.refreshToken) := by
    rcases hcreds with h | h | h <;> simp [h]
  have hr := refresh_no_creds_helper st now e rresp nowAfter h2
  unfold spotifyFetch
  rw [hr, hcache]
  simp [truthy]

/-- Witness for C3 at a concrete input: empty store, no refresh token configured. -/
theorem fetch_no_creds_no_cache_fails_witness :
    spotifyFetch (α := Unit) ⟨none, 0⟩ 1000 ⟨some "i", some "s", none⟩
      ⟨true, 200, "", some "x", none⟩ 1001 ⟨true, 200, "", ()⟩ =
      ⟨Except.error SpotifyError.noCredentialsAvailable, ⟨none, 0⟩, 0, 0⟩ :=
  fetch_no_creds_no_cache_fails ⟨none, 0⟩ 1000 ⟨some "i", some "s", none⟩
    ⟨true, 200, "", some "x", none⟩ 1001 ⟨true, 200, "", ()⟩ (by decide)
    (Or.inr (Or.inr (by decide)))

/-- Claim C4: whenever `spotifyFetch` reaches the upstream API (a truthy token
was obtained), a non-success response makes the call fail with
`upstreamApiError` carrying the status and response text, and a success
response makes it return the parsed JSON body; exactly one API request is
issued either way. -/
theorem spotifyFetch_upstream_result {α : Type} (st : TokenState) (now : Int) (e : Env)
    (rresp : RefreshResponse) (nowAfter : Int) (apiResp : ApiResponse α)
    (tok : Option String)
    (hr : (refreshAccessTokenIfNeeded st now e rresp nowAfter).1 = Except.ok tok)
    (ht : truthy tok = true) :
    (spotifyFetch st now e rresp nowAfter apiResp).result =
      (if apiResp.ok then Except.ok apiResp.json
        else Except.error (SpotifyError.upstreamApiError apiResp.status apiResp.text)) ∧
    (spotifyFetch st now e rresp nowAfter apiResp).apiCalls = 1 := by
  rcases hfull : refreshAccessTokenIfNeeded st now e rresp nowAfter with ⟨r, st2, rc⟩
  rw [hfull] at hr
  simp only at hr
  subst hr
  unfold spotifyFetch
  rw [hfull]
  by_cases hok : apiResp.ok = true
  · simp [ht, hok]
  · simp [ht, hok]

/-- Witness for C4 at a concrete input: a valid cached token and a 404 response
with body "nope" produce `upstreamApiError 404 "nope"` after one API call. -/
theorem spotifyFetch_upstream_result_witness :
    (spotifyFetch (α := Nat) ⟨some "tok", 1000000⟩ 0 ⟨none, none, none⟩
        ⟨true, 200, "", none, none⟩ 0 ⟨false, 404, "nope", 7⟩).result =
      (if (false : Bool) then Except.ok 7
        else Except.error (SpotifyError.upstreamApiError 404 "nope")) ∧
    (spotifyFetch (α := Nat) ⟨some "tok", 1000000⟩ 0 ⟨none, none, none⟩
        ⟨true, 200, "", none, none⟩ 0 ⟨false, 404, "nope", 7⟩).apiCalls = 1 :=
  spotifyFetch_upstream_result ⟨some "tok", 1000000⟩ 0 ⟨none, none, none⟩
    ⟨true, 200, "", none, none⟩ 0 ⟨false, 404, "nope", 7⟩ (some "tok")
    rfl (by decide)

/-! ## Claims about the setup-mode callback listener -/

/-- Claim C5: a setup-mode callback request (url under `/callback`) whose
`state` parameter differs from the generated state string, or whose `code`
parameter is missing, ends the flow with exit code 1 and issues no
token-exchange request. -/
theorem setup_state_mismatch_rejected (STATE : String) (req : CallbackRequest)
    (exch : ExchangeResponse)
    (hcb : strStartsWith req.url "/callback" = true)
    (hbad : req.state ≠ some STATE ∨ req.code = none) :
    exitCode (setupCallback STATE req exch).1 = some 1 ∧
    (setupCallback STATE req exch).2 = 0 := by
  have hcond : ¬ truthy req.code ∨ req.state ≠ some STATE := by
    rcases hbad with h | h
    · exact Or.inr h
    · exact Or.inl (by simp [h, truthy])
  unfold setupCallback
  rw [if_neg (by simp [hcb])]
  by_cases herr : truthy req.error
  · rw [if_pos herr]
    exact ⟨rfl, rfl⟩
  · rw [if_neg herr, if_pos hcond]
    exact ⟨rfl, rfl⟩

/-- Witness for C5 at a concrete input: state parameter "zzz" against generated
state "abc". -/
theorem setup_state_mismatch_rejected_witness :
    exitCode (setupCallback "abc" ⟨"/callback?code=c&state=zzz", some "c", some "zzz", none⟩
        ⟨true, 200, "", none, none⟩).1 = some 1 ∧
    (setupCallback "abc" ⟨"/callback?code=c&state=zzz", some "c", some "zzz", none⟩
        ⟨true, 200, "", none, none⟩).2 = 0 :=
  setup_state_mismatch_rejected "abc" ⟨"/callback?code=c&state=zzz", some "c", some "zzz", none⟩
    ⟨true, 200, "", none, none⟩ (by decide) (Or.inl (by decide))

/-- Counterexample to C6 as stated: the request with url "/callbackX" is to a
path other than "/callback", yet the listener does not answer not-found and
leave the flow awaiting — it treats it as a callback (the source tests
`req.url?.startsWith("/callback")`, not path equality), answers 400 and shuts
down with exit code 1. -/
theorem setup_other_path_counterexample :
    urlPath "/callbackX" ≠ "/callback" ∧
    (setupCallback "s" ⟨"/callbackX", none, none, none⟩
        ⟨true, 200, "", none, none⟩).1 = SetupOutcome.badRequest ∧
    SetupOutcome.badRequest ≠ SetupOutcome.notFound ∧
    exitCode SetupOutcome.badRequest = some 1 := by
  exact ⟨by decide, by decide, by decide, rfl⟩

/-- Claim C6 (amended): while the setup listener awaits the callback, every
request whose url does not start with "/callback" receives the not-found
response, issues no token-exchange request, and leaves the flow awaiting
(no shutdown); requests to other paths whose url does start with "/callback"
(such as "/callbackX") are instead handled as callbacks. -/
theorem setup_non_callback_prefix_not_found (STATE : String) (req : CallbackRequest)
    (exch : ExchangeResponse)
    (h : strStartsWith req.url "/callback" = false) :
    setupCallback STATE req exch = (SetupOutcome.notFound, 0) ∧
    exitCode SetupOutcome.notFound = none := by
  constructor
  · unfold setupCallback
    rw [if_pos (by simp [h])]
  · rfl

/-- Witness for amended C6 at a concrete input. -/
theorem setup_non_callback_prefix_not_found_witness :
    setupCallback "abc" ⟨"/favicon.ico", none, none, none⟩ ⟨true, 200, "", none, none⟩ =
      (SetupOutcome.notFound, 0) ∧
    exitCode SetupOutcome.notFound = none :=
  setup_non_callback_prefix_not_found "abc" ⟨"/favicon.ico", none, none, none⟩
    ⟨true, 200, "", none, none⟩ (by decide)

/-! ## Claims about the tool handlers -/

/-- Claim C7: invoking `spotify_add_to_playlist` with an empty `uris` list is
rejected as invalid input by the declared schema (`z.array(z.string()).min(1)`)
before the handler body runs, so zero network requests are made — whatever the
other arguments, the token cache, the environment, or the network would have
answered. -/
theorem add_to_playlist_empty_uris_rejected (playlistId : String) (position : Option Int)
    (st : TokenState) (now : Int) (e : Env) (rresp : RefreshResponse) (nowAfter : Int)
    (apiResp : ApiResponse Unit) :
    invokeTool addToPlaylistValid
      (fun a => addToPlaylistHandler a st now e rresp nowAfter apiResp)
      ⟨playlistId, [], position⟩ = (ToolResult.invalidInput, 0) := by
  unfold invokeTool
  rw [if_neg (by simp [addToPlaylistValid])]

/-- Claim C8: when `spotify_search_tracks` gets a successful upstream response
containing zero track items, it returns (without error) a single text content
block equal to the literal fallback string. -/
theorem search_tracks_empty_fallback (st : TokenState) (now : Int) (e : Env)
    (rresp : RefreshResponse) (nowAfter : Int) (apiResp : ApiResponse SearchData)
    (data : SearchData)
    (hr : (spotifyFetch st now e rresp nowAfter apiResp).result = Except.ok data)
    (hempty : searchItems data = []) :
    searchTracksTool st now e rresp nowAfter apiResp =
      Except.ok [ContentBlock.text "No tracks found. Try a different query or filters."] := by
  unfold searchTracksTool
  rw [hr]
  simp [searchTracksText, hempty, jsOrString, String.intercalate]

/-- Witness for C8 at a concrete input: a valid cached token and a success
response whose body has no `tracks` object. -/
theorem search_tracks_empty_fallback_witness :
    searchTracksTool ⟨some "tok", 1000000⟩ 0 ⟨none, none, none⟩
      ⟨true, 200, "", none, none⟩ 0 ⟨true, 200, "", ⟨none⟩⟩ =
      Except.ok [ContentBlock.text "No tracks found. Try a different query or filters."] :=
  search_tracks_empty_fallback ⟨some "tok", 1000000⟩ 0 ⟨none, none, none⟩
    ⟨true, 200, "", none, none⟩ 0 ⟨true, 200, "", ⟨none⟩⟩ ⟨none⟩ rfl rfl

end SpotifyMCP
